import Mathlib

/-!
Shallow embedding of the GoAethereal/modbus core (Modbus/TCP framer,
handler multiplexer, server per-frame worker and client request engine),
with theorems settling the specification claims.

Byte buffers are modelled as `List Nat` (each entry one byte, big-endian
multi-byte fields assembled explicitly).  A Go slice-index expression that
can panic is modelled through `Option`: an outer `none` marks an
out-of-range access (runtime panic), `some` carries the Go return values.
-/

namespace Modbus

/-- Error values of the package (`error.go` sentinels, decoded modbus
exceptions, transport and cancellation errors). -/
inductive MbError where
  | invalidRequest
  | exception (code : Nat)
  | mismatchedTransactionId
  | mismatchedProtocolId
  | mismatchedUnitId
  | dataSizeExceeded
  | cancelled
  | io (id : Nat)
deriving DecidableEq, Repr

/-- Result of `tcp.decode`: either the parsed `(uid, code, data)` tuple or
the returned error value. -/
inductive Decoded where
  | ok (uid code : Nat) (data : List Nat)
  | err (e : MbError)
deriving DecidableEq, Repr

/-- The TCP framer state (`framer.go`): the transaction-id counter, a Go
`uint32` incremented atomically on each encode. -/
structure Tcp where
  transId : Nat
deriving DecidableEq, Repr

/-- `tcp.encode` from `framer.go`.  Rejects data longer than 252 bytes,
otherwise builds the 8-byte MBAP header (fresh transaction id, protocol id
left zero from the zeroed buffer, length field `2 + len(data)`, unit id,
function code) followed by the data. -/
def Tcp.encode (s : Tcp) (uid code : Nat) (data : List Nat) :
    Tcp × Option (List Nat) :=
  if 252 < data.length then (s, none)
  else
    let c := (s.transId + 1) % 4294967296
    let tid := c % 65536
    let lenField := 2 + data.length
    (⟨c⟩, some (tid / 256 :: tid % 256 :: 0 :: 0 ::
      lenField / 256 :: lenField % 256 :: uid :: code :: data))

/-- `tcp.decode` from `framer.go`.  Inputs shorter than 8 bytes yield the
"invalid request" error; a function-code byte with the high bit set yields
`Exception(adu[8])`, where the index-8 access is out of range (`none`,
panic) exactly when the ADU is 8 bytes long; otherwise the
`(uid, code, data)` tuple. -/
def Tcp.decode (adu : List Nat) : Option Decoded :=
  if adu.length < 8 then some (.err .invalidRequest)
  else if 128 ≤ adu.getD 7 0 then
    if adu.length < 9 then none
    else some (.err (.exception (adu.getD 8 0)))
  else some (.ok (adu.getD 6 0) (adu.getD 7 0) (adu.drop 8))

/-- `tcp.verify` from `framer.go`.  Switch over mismatched transaction id
(bytes 0-1), protocol id (bytes 2-3), and unit id (byte 6, only compared
when the request unit id is nonzero); `some none` models the Go `nil`
return.  Each Go index expression is guarded here by the bound it needs,
`none` modelling the out-of-range panic; Go's short-circuit `||` and `&&`
determine which indices are evaluated. -/
def Tcp.verify (req res : List Nat) : Option (Option MbError) :=
  if req.length < 1 ∨ res.length < 1 then none
  else if req.getD 0 0 ≠ res.getD 0 0 then some (some .mismatchedTransactionId)
  else if req.length < 2 ∨ res.length < 2 then none
  else if req.getD 1 0 ≠ res.getD 1 0 then some (some .mismatchedTransactionId)
  else if req.length < 3 ∨ res.length < 3 then none
  else if req.getD 2 0 ≠ res.getD 2 0 then some (some .mismatchedProtocolId)
  else if req.length < 4 ∨ res.length < 4 then none
  else if req.getD 3 0 ≠ res.getD 3 0 then some (some .mismatchedProtocolId)
  else if req.length < 7 then none
  else if req.getD 6 0 = 0 then some none
  else if res.length < 7 then none
  else if req.getD 6 0 ≠ res.getD 6 0 then some (some .mismatchedUnitId)
  else some none

/-- `tcp.reply` from `framer.go`: encode a fresh ADU then overwrite its
transaction id with the one from `req` (indices 0 and 1 of `req`, which
panic when `req` is shorter than 2 bytes). -/
def Tcp.reply (s : Tcp) (uid code : Nat) (data req : List Nat) :
    Tcp × Option (Option (List Nat)) :=
  match s.encode uid code data with
  | (s', none) => (s', some none)
  | (s', some res) =>
    if req.length < 2 then (s', none)
    else (s', some (some ((res.set 0 (req.getD 0 0)).set 1 (req.getD 1 0))))

/-- Modbus exception codes (`modbus.go` constants); Go `Exception` values
are bytes, `Option Nat` models the nil-able interface value in
`handler.go`. -/
def ExIllegalFunction : Nat := 0x01

/-- Exception code 0x02. -/
def ExIllegalDataAddress : Nat := 0x02

/-- Exception code 0x03. -/
def ExIllegalDataValue : Nat := 0x03

/-- Exception code 0x04. -/
def ExSlaveDeviceFailure : Nat := 0x04

/-- Big-endian `binary.BigEndian.Uint16(l[i:])`, used only where the
surrounding length checks keep both indices in range. -/
def u16at (l : List Nat) (i : Nat) : Nat :=
  256 * l.getD i 0 + l.getD (i + 1) 0

/-- `byteCount` from the helpers file: `(bitCount + 7) / 8` computed in Go
`uint16` arithmetic. -/
def byteCount (bitCount : Nat) : Nat :=
  ((bitCount + 7) % 65536) / 8

/-- `bytesToBools` from the helpers file: bit `k` (MSB first within each
byte) of the packed bytes, truncated to `quantity` entries; bits past the
supplied bytes read as false (the Go loop leaves them zeroed). -/
def bytesToBools (quantity : Nat) (bytes : List Nat) : List Bool :=
  (List.range quantity).map fun k =>
    ((bytes.getD (k / 8) 0 <<< (k % 8)) % 256) &&& 128 == 128

/-- `putBoolS` from the helpers file: set bit `0x80 >> (c % 8)` of byte
`c / 8` for every true entry, walking the bools in order. -/
def putBools (buf : List Nat) (args : List Bool) : List Nat :=
  args.enum.foldl
    (fun b ci =>
      if ci.2 then b.set (ci.1 / 8) (b.getD (ci.1 / 8) 0 ||| (128 >>> (ci.1 % 8)))
      else b)
    buf

/-- The `Mux` request multiplexer of `handler.go`: one optional callback
per supported function code plus a fallback.  Callback results use
`List Nat`/`List Bool` payloads and `Option Nat` exceptions (`none` = Go
nil). -/
structure Mux where
  Fallback : Option (Nat → List Nat → List Nat × Option Nat) := none
  ReadCoils : Option (Nat → Nat → List Bool × Option Nat) := none
  ReadDiscreteInputs : Option (Nat → Nat → List Bool × Option Nat) := none
  ReadHoldingRegisters : Option (Nat → Nat → List Nat × Option Nat) := none
  ReadInputRegisters : Option (Nat → Nat → List Nat × Option Nat) := none
  WriteSingleCoil : Option (Nat → Bool → Option Nat) := none
  WriteSingleRegister : Option (Nat → Nat → Option Nat) := none
  WriteMultipleCoils : Option (Nat → List Bool → Option Nat) := none
  WriteMultipleRegisters : Option (Nat → List Nat → Option Nat) := none
  ReadWriteMultipleRegisters :
    Option (Nat → Nat → Nat → List Nat → List Nat × Option Nat) := none

/-- `Mux.fallback` from `handler.go`. -/
def Mux.fallback (h : Mux) (code : Nat) (req : List Nat) :
    Option (List Nat) × Option Nat :=
  match h.Fallback with
  | none => (none, some ExIllegalFunction)
  | some f =>
    let (res, ex) := f code req
    (some res, ex)

/-- `Mux.readCoils` from `handler.go` (function code 0x01). -/
def Mux.readCoils (h : Mux) (req : List Nat) :
    Option (List Nat) × Option Nat :=
  match h.ReadCoils with
  | none => (none, some ExIllegalFunction)
  | some f =>
    if req.length ≠ 4 then (none, some ExIllegalDataAddress)
    else
      let address := u16at req 0
      let quantity := u16at req 2
      if quantity < 1 ∨ quantity > 2000 then (none, some ExIllegalDataValue)
      else if address + quantity > 0xFFFF then (none, some ExIllegalDataAddress)
      else
        let (status, ex) := f address quantity
        match ex with
        | some e => (none, some e)
        | none =>
          if status.length ≠ quantity then (none, some ExSlaveDeviceFailure)
          else
            (some (byteCount quantity % 256 ::
              putBools (List.replicate (byteCount quantity) 0) status), none)

/-- `Mux.readDiscreteInputs` from `handler.go` (function code 0x02). -/
def Mux.readDiscreteInputs (h : Mux) (req : List Nat) :
    Option (List Nat) × Option Nat :=
  match h.ReadDiscreteInputs with
  | none => (none, some ExIllegalFunction)
  | some f =>
    if req.length ≠ 4 then (none, some ExIllegalDataAddress)
    else
      let address := u16at req 0
      let quantity := u16at req 2
      if quantity < 1 ∨ quantity > 2000 then (none, some ExIllegalDataValue)
      else if address + quantity > 0xFFFF then (none, some ExIllegalDataAddress)
      else
        let (status, ex) := f address quantity
        match ex with
        | some e => (none, some e)
        | none =>
          if status.length ≠ quantity then (none, some ExSlaveDeviceFailure)
          else
            (some (byteCount quantity % 256 ::
              putBools (List.replicate (byteCount quantity) 0) status), none)

/-- `Mux.readHoldingRegisters` from `handler.go` (function code 0x03). -/
def Mux.readHoldingRegisters (h : Mux) (req : List Nat) :
    Option (List Nat) × Option Nat :=
  match h.ReadHoldingRegisters with
  | none => (none, some ExIllegalFunction)
  | some f =>
    if req.length ≠ 4 then (none, some ExIllegalDataAddress)
    else
      let address := u16at req 0
      let quantity := u16at req 2
      if quantity < 1 ∨ quantity > 125 then (none, some ExIllegalDataValue)
      else if address + quantity > 0xFFFF then (none, some ExIllegalDataAddress)
      else
        let (values, ex) := f address quantity
        match ex with
        | some e => (none, some e)
        | none =>
          if values.length ≠ 2 * quantity then (none, some ExSlaveDeviceFailure)
          else (some ((quantity * 2) % 256 :: values), none)

/-- `Mux.readInputRegisters` from `handler.go` (function code 0x04). -/
def Mux.readInputRegisters (h : Mux) (req : List Nat) :
    Option (List Nat) × Option Nat :=
  match h.ReadInputRegisters with
  | none => (none, some ExIllegalFunction)
  | some f =>
    if req.length ≠ 4 then (none, some ExIllegalDataAddress)
    else
      let address := u16at req 0
      let quantity := u16at req 2
      if quantity < 1 ∨ quantity > 125 then (none, some ExIllegalDataValue)
      else if address + quantity > 0xFFFF then (none, some ExIllegalDataAddress)
      else
        let (values, ex) := f address quantity
        match ex with
        | some e => (none, some e)
        | none =>
          if values.length ≠ 2 * quantity then (none, some ExSlaveDeviceFailure)
          else (some ((quantity * 2) % 256 :: values), none)

/-- `Mux.writeSingleCoil` from `handler.go` (function code 0x05): value
0x0000 means off, 0xFF00 means on, anything else is rejected; the 4-byte
request is echoed on success. -/
def Mux.writeSingleCoil (h : Mux) (req : List Nat) :
    Option (List Nat) × Option Nat :=
  match h.WriteSingleCoil with
  | none => (none, some ExIllegalFunction)
  | some f =>
    if req.length ≠ 4 then (none, some ExIllegalDataAddress)
    else
      let address := u16at req 0
      let v := u16at req 2
      if v = 0x0000 then
        match f address false with
        | some e => (none, some e)
        | none => (some req, none)
      else if v = 0xFF00 then
        match f address true with
        | some e => (none, some e)
        | none => (some req, none)
      else (none, some ExIllegalDataValue)

/-- `Mux.writeSingleRegister` from `handler.go` (function code 0x06). -/
def Mux.writeSingleRegister (h : Mux) (req : List Nat) :
    Option (List Nat) × Option Nat :=
  match h.WriteSingleRegister with
  | none => (none, some ExIllegalFunction)
  | some f =>
    if req.length ≠ 4 then (none, some ExIllegalDataAddress)
    else
      match f (u16at req 0) (u16at req 2) with
      | some e => (none, some e)
      | none => (some req, none)

/-- `Mux.writeMultipleCoils` from `handler.go` (function code 0x0F). -/
def Mux.writeMultipleCoils (h : Mux) (req : List Nat) :
    Option (List Nat) × Option Nat :=
  match h.WriteMultipleCoils with
  | none => (none, some ExIllegalFunction)
  | some f =>
    if req.length < 6 then (none, some ExIllegalDataAddress)
    else
      let address := u16at req 0
      let quantity := u16at req 2
      if quantity < 1 ∨ quantity > 1968 ∨ (req.drop 5).length ≠ req.getD 4 0 then
        (none, some ExIllegalDataValue)
      else if address + quantity > 0xFFFF then (none, some ExIllegalDataAddress)
      else
        match f address (bytesToBools quantity (req.drop 5)) with
        | some e => (none, some e)
        | none => (some (req.take 4), none)

/-- `Mux.writeMultipleRegisters` from `handler.go` (function code 0x10). -/
def Mux.writeMultipleRegisters (h : Mux) (req : List Nat) :
    Option (List Nat) × Option Nat :=
  match h.WriteMultipleRegisters with
  | none => (none, some ExIllegalFunction)
  | some f =>
    if req.length < 6 then (none, some ExIllegalDataAddress)
    else
      let address := u16at req 0
      let quantity := u16at req 2
      if quantity < 1 ∨ quantity > 123 ∨ (2 * quantity) % 65536 ≠ req.getD 4 0 ∨
          req.getD 4 0 ≠ (req.drop 5).length then
        (none, some ExIllegalDataValue)
      else if address + quantity > 0xFFFF then (none, some ExIllegalDataAddress)
      else
        match f address (req.drop 5) with
        | some e => (none, some e)
        | none => (some (req.take 4), none)

/-- `Mux.readWriteMultipleRegisters` from `handler.go` (function code
0x17).  Note the byte-count field at index 8 is compared against
`rQuantity * 2` in the source. -/
def Mux.readWriteMultipleRegisters (h : Mux) (req : List Nat) :
    Option (List Nat) × Option Nat :=
  match h.ReadWriteMultipleRegisters with
  | none => (none, some ExIllegalFunction)
  | some f =>
    if req.length < 11 then (none, some ExIllegalDataAddress)
    else
      let rAddress := u16at req 0
      let rQuantity := u16at req 2
      let wAddress := u16at req 4
      let wQuantity := u16at req 6
      if rQuantity < 1 ∨ rQuantity > 125 ∨ wQuantity < 1 ∨ wQuantity > 121 ∨
          (rQuantity * 2) % 65536 ≠ req.getD 8 0 ∨
          req.getD 8 0 ≠ (req.drop 9).length then
        (none, some ExIllegalDataValue)
      else if rAddress + rQuantity > 0xFFFF ∨ wAddress + wQuantity > 0xFFFF then
        (none, some ExIllegalDataAddress)
      else
        let (res, ex) := f rAddress rQuantity wAddress (req.drop 9)
        match ex with
        | some e => (none, some e)
        | none =>
          if res.length ≠ rQuantity * 2 then (none, some ExSlaveDeviceFailure)
          else (some (res.length % 256 :: res), none)

/-- `Mux.Handle` from `handler.go`: dispatch on the function code,
falling through to the fallback. -/
def Mux.Handle (h : Mux) (code : Nat) (req : List Nat) :
    Option (List Nat) × Option Nat :=
  if code = 0x01 then h.readCoils req
  else if code = 0x02 then h.readDiscreteInputs req
  else if code = 0x03 then h.readHoldingRegisters req
  else if code = 0x04 then h.readInputRegisters req
  else if code = 0x05 then h.writeSingleCoil req
  else if code = 0x06 then h.writeSingleRegister req
  else if code = 0x0F then h.writeMultipleCoils req
  else if code = 0x10 then h.writeMultipleRegisters req
  else if code = 0x17 then h.readWriteMultipleRegisters req
  else h.fallback code req

/-- The per-frame processing task spawned by `Server.handle`
(`server.go`), instantiated with the TCP framer of `framer.go`: decode the
copied frame (drop it silently on a decode error), call the handler for
codes below 0x80 or set the IllegalFunction exception otherwise, shape
exception / oversized responses, and frame the reply (which carries the
request's transaction id).  The result is the new framer state and
`some (some adu)` for a written response, `some none` for a silently
dropped frame, `none` for an index panic. -/
def serverProcess (h : Nat → List Nat → List Nat × Option Nat) (s : Modbus.Tcp)
    (adu : List Nat) : Modbus.Tcp × Option (Option (List Nat)) :=
  match Modbus.Tcp.decode adu with
  | none => (s, none)
  | some (.err _) => (s, some none)
  | some (.ok uid code data) =>
    let (res, ex) := if code < 0x80 then h code data else ([], some ExIllegalFunction)
    let (code', res') :=
      match ex with
      | some e => (code ||| 0x80, [e % 256])
      | none =>
        if res.length > 252 then (code ||| 0x80, [ExSlaveDeviceFailure]) else (code, res)
    match s.reply uid code' res' adu with
    | (s', none) => (s', none)
    | (s', some none) => (s', some (some []))
    | (s', some (some outAdu)) => (s', some (some outAdu))

/-- Effect trace entries of a `Client.Request` call: lazy connection
establishment, ADU encoding, receiver registration, transmission. -/
inductive CAct where
  | connect
  | encode
  | rxreg
  | tx
deriving DecidableEq, Repr

/-- Outcome of waiting on the registered receiver: still waiting when no
offered frame ended the wait, crashed on an index panic inside the
callback, or the stored `(res, err)` pair. -/
inductive Await where
  | pending
  | crashed
  | got (res : Option (List Nat) × Option MbError)
deriving DecidableEq, Repr

/-- Environment of one `Client.Request` call: outcome of the lazy
connection/framer initialisation, outcome of the transmit, the sequence of
`(bytes, err)` read events the connection broadcasts to the registered
receiver (each frame is offered to every registered receiver in receipt
order), and whether the caller's cancel signal fired. -/
structure ClientEnv where
  initErr : Option MbError := none
  txErr : Option MbError := none
  frames : List (List Nat × Option MbError) := []
  cancelled : Bool := false

/-- The receiver callback registered by `Client.Request` (client file,
rx callback), folded over the frames offered to it: a read error is
stored and quits; a transaction-id mismatch keeps waiting; any other
verify error is stored and quits; on verify success the frame is copied
into the 260-byte request buffer and decoded, storing the decoded data or
error. -/
def clientAwait (reqAdu : List Nat) :
    List (List Nat × Option MbError) → Await
  | [] => .pending
  | (adu, er) :: rest =>
    match er with
    | some e => .got (none, some e)
    | none =>
      match Modbus.Tcp.verify reqAdu adu with
      | none => .crashed
      | some none =>
        match Modbus.Tcp.decode (adu.take 260) with
        | none => .crashed
        | some (.ok _ _ d) => .got (some d, none)
        | some (.err e) => .got (none, some e)
      | some (some .mismatchedTransactionId) => clientAwait reqAdu rest
      | some (some e) => .got (none, some e)

/-- `Client.Request` (client file): reject codes 0 and ≥ 0x80 with
IllegalFunction before any other step; then lazily initialise connection
and framer, encode, register the receiver, transmit, await the receiver,
and finally surface cancellation.  The trace records which effectful
steps were reached. -/
def clientRequest (env : ClientEnv) (s : Modbus.Tcp) (uid code : Nat)
    (req : List Nat) : List CAct × Await :=
  if code = 0 ∨ 0x80 ≤ code then
    ([], .got (none, some (.exception ExIllegalFunction)))
  else
    match env.initErr with
    | some e => ([.connect], .got (none, some e))
    | none =>
      match (s.encode uid code req).2 with
      | none => ([.connect, .encode], .got (none, some .dataSizeExceeded))
      | some adu =>
        match env.txErr with
        | some e => ([.connect, .encode, .rxreg, .tx], .got (none, some e))
        | none =>
          ([.connect, .encode, .rxreg, .tx],
            match clientAwait adu env.frames, env.cancelled with
            | .crashed, _ => .crashed
            | _, true => .got (none, some .cancelled)
            | .got x, false => .got x
            | .pending, false => .pending)

/-! Helper lemmas about the embedded operations. -/

theorem verify_spec {req res : List Nat}
    (hreq : 7 ≤ req.length) (hres : 7 ≤ res.length) :
    Tcp.verify req res = some (
      if req.getD 0 0 ≠ res.getD 0 0 ∨ req.getD 1 0 ≠ res.getD 1 0 then
        some .mismatchedTransactionId
      else if req.getD 2 0 ≠ res.getD 2 0 ∨ req.getD 3 0 ≠ res.getD 3 0 then
        some .mismatchedProtocolId
      else if req.getD 6 0 ≠ 0 ∧ req.getD 6 0 ≠ res.getD 6 0 then
        some .mismatchedUnitId
      else none) := by
  unfold Tcp.verify
  rw [if_neg (show ¬(req.length < 1 ∨ res.length < 1) by omega),
    if_neg (show ¬(req.length < 2 ∨ res.length < 2) by omega),
    if_neg (show ¬(req.length < 3 ∨ res.length < 3) by omega),
    if_neg (show ¬(req.length < 4 ∨ res.length < 4) by omega),
    if_neg (show ¬(req.length < 7) by omega),
    if_neg (show ¬(res.length < 7) by omega)]
  split_ifs <;> first | rfl | tauto

theorem encode_eq (s : Tcp) (uid code : Nat) (data : List Nat)
    (h : data.length ≤ 252) :
    s.encode uid code data =
      (⟨(s.transId + 1) % 4294967296⟩,
        some ((s.transId + 1) % 4294967296 % 65536 / 256 ::
          (s.transId + 1) % 4294967296 % 65536 % 256 :: 0 :: 0 ::
          (2 + data.length) / 256 :: (2 + data.length) % 256 ::
          uid :: code :: data)) := by
  unfold Tcp.encode
  rw [if_neg (by omega)]

theorem decode_wf {l : List Nat} (h8 : 8 ≤ l.length) (hc : l.getD 7 0 < 128) :
    Tcp.decode l = some (.ok (l.getD 6 0) (l.getD 7 0) (l.drop 8)) := by
  unfold Tcp.decode
  rw [if_neg (by omega), if_neg (by omega)]

theorem decode_cons (t1 t0 p1 p0 l1 l0 uid code : Nat) (data : List Nat)
    (hc : code < 128) :
    Tcp.decode (t1 :: t0 :: p1 :: p0 :: l1 :: l0 :: uid :: code :: data) =
      some (.ok uid code data) :=
  decode_wf (by simp) hc

theorem decode_ex {l : List Nat} (h9 : 9 ≤ l.length) (hc : 128 ≤ l.getD 7 0) :
    Tcp.decode l = some (.err (.exception (l.getD 8 0))) := by
  unfold Tcp.decode
  rw [if_neg (by omega), if_pos hc, if_neg (by omega)]

/-! Claim theorems. -/

/-- C1 counterexample: the claim quantifies over all function-code bytes,
but for `code = 0x80` (with `uid = 0`, `data = [0]`) `tcp.encode` succeeds
while `tcp.decode` parses the ADU as a server-reported exception and
returns an error instead of yielding back `(uid, code, data)`. -/
theorem C1_counterexample :
    ((Tcp.mk 0).encode 0 128 [0]).2 = some [0, 1, 0, 0, 0, 3, 0, 128, 0] ∧
    Tcp.decode [0, 1, 0, 0, 0, 3, 0, 128, 0] = some (.err (.exception 0)) ∧
    Tcp.decode [0, 1, 0, 0, 0, 3, 0, 128, 0] ≠ some (.ok 0 128 [0]) := by
  decide

/-- C1 amended: for every `uid`, `data` with `len(data) ≤ 252`, and every
function code below 0x80, decoding the ADU produced by
`tcp.encode(uid, code, data)` yields back exactly `(uid, code, data)`, and
the header has protocol-id bytes 0 and length field `2 + len(data)`. -/
theorem C1_roundtrip (s : Tcp) (uid code : Nat) (data : List Nat)
    (hdata : data.length ≤ 252) (hcode : code < 0x80) :
    ∃ adu, (s.encode uid code data).2 = some adu ∧
      Tcp.decode adu = some (.ok uid code data) ∧
      adu.getD 2 0 = 0 ∧ adu.getD 3 0 = 0 ∧
      256 * adu.getD 4 0 + adu.getD 5 0 = 2 + data.length := by
  rw [encode_eq s uid code data hdata]
  refine ⟨_, rfl, decode_cons _ _ _ _ _ _ _ _ _ hcode, rfl, rfl, ?_⟩
  show 256 * ((2 + data.length) / 256) + (2 + data.length) % 256 = 2 + data.length
  omega

/-- C1 witness: the amended roundtrip at a concrete input. -/
theorem C1_witness :
    ∃ adu, ((Tcp.mk 5).encode 17 3 [0, 107]).2 = some adu ∧
      Tcp.decode adu = some (.ok 17 3 [0, 107]) ∧
      adu.getD 2 0 = 0 ∧ adu.getD 3 0 = 0 ∧
      256 * adu.getD 4 0 + adu.getD 5 0 = 2 + ([0, 107] : List Nat).length :=
  C1_roundtrip ⟨5⟩ 17 3 [0, 107] (by decide) (by decide)

/-- C2: for request and response buffers of at least 7 bytes,
`tcp.verify` returns MismatchedTransactionId exactly when bytes 0-1
differ, otherwise MismatchedProtocolId exactly when bytes 2-3 differ,
otherwise MismatchedUnitId exactly when request byte 6 is nonzero and
differs from response byte 6, and nil (`some none`) otherwise. -/
theorem C2_verify_cases {req res : List Nat}
    (hreq : 7 ≤ req.length) (hres : 7 ≤ res.length) :
    Tcp.verify req res = some (
      if req.getD 0 0 ≠ res.getD 0 0 ∨ req.getD 1 0 ≠ res.getD 1 0 then
        some .mismatchedTransactionId
      else if req.getD 2 0 ≠ res.getD 2 0 ∨ req.getD 3 0 ≠ res.getD 3 0 then
        some .mismatchedProtocolId
      else if req.getD 6 0 ≠ 0 ∧ req.getD 6 0 ≠ res.getD 6 0 then
        some .mismatchedUnitId
      else none) :=
  verify_spec hreq hres

/-- C2 witness: matching transaction id, protocol id, and unit id give a
nil verify result at a concrete pair. -/
theorem C2_witness :
    Tcp.verify [0, 1, 0, 0, 0, 6, 17, 3] [0, 1, 0, 0, 0, 5, 17, 3, 2] = some (
      if ([0, 1, 0, 0, 0, 6, 17, 3] : List Nat).getD 0 0 ≠
            ([0, 1, 0, 0, 0, 5, 17, 3, 2] : List Nat).getD 0 0 ∨
          ([0, 1, 0, 0, 0, 6, 17, 3] : List Nat).getD 1 0 ≠
            ([0, 1, 0, 0, 0, 5, 17, 3, 2] : List Nat).getD 1 0 then
        some .mismatchedTransactionId
      else if ([0, 1, 0, 0, 0, 6, 17, 3] : List Nat).getD 2 0 ≠
            ([0, 1, 0, 0, 0, 5, 17, 3, 2] : List Nat).getD 2 0 ∨
          ([0, 1, 0, 0, 0, 6, 17, 3] : List Nat).getD 3 0 ≠
            ([0, 1, 0, 0, 0, 5, 17, 3, 2] : List Nat).getD 3 0 then
        some .mismatchedProtocolId
      else if ([0, 1, 0, 0, 0, 6, 17, 3] : List Nat).getD 6 0 ≠ 0 ∧
          ([0, 1, 0, 0, 0, 6, 17, 3] : List Nat).getD 6 0 ≠
            ([0, 1, 0, 0, 0, 5, 17, 3, 2] : List Nat).getD 6 0 then
        some .mismatchedUnitId
      else none) :=
  C2_verify_cases (by decide) (by decide)

/-- C3: for `len(data) ≤ 252` and a request of at least 2 bytes,
`tcp.reply` succeeds, its first two bytes are the request's transaction
id, and the remaining bytes coincide with those of a freshly encoded ADU
for `(uid, code, data)` (from any framer state). -/
theorem C3_reply_preserves_tid (s s' : Tcp) (uid code : Nat)
    (data req : List Nat) (hdata : data.length ≤ 252) (hreq : 2 ≤ req.length) :
    ∃ res fresh,
      (s.reply uid code data req).2 = some (some res) ∧
      (s'.encode uid code data).2 = some fresh ∧
      res.take 2 = req.take 2 ∧ res.drop 2 = fresh.drop 2 := by
  rcases req with _ | ⟨a, _ | ⟨b, t⟩⟩
  · simp at hreq
  · simp at hreq
  · unfold Tcp.reply
    rw [encode_eq s uid code data hdata, encode_eq s' uid code data hdata]
    simp only []
    rw [if_neg (by simp)]
    exact ⟨_, _, rfl, rfl, rfl, rfl⟩

/-- C3 witness: the reply property at a concrete input. -/
theorem C3_witness :
    ∃ res fresh,
      ((Tcp.mk 0).reply 7 3 [1, 2] [9, 8, 7, 6]).2 = some (some res) ∧
      ((Tcp.mk 41).encode 7 3 [1, 2]).2 = some fresh ∧
      res.take 2 = ([9, 8, 7, 6] : List Nat).take 2 ∧
      res.drop 2 = fresh.drop 2 :=
  C3_reply_preserves_tid ⟨0⟩ ⟨41⟩ 7 3 [1, 2] [9, 8, 7, 6] (by decide) (by decide)

/-- C4 counterexample: an inbound 9-byte ADU whose function-code byte is
0x80 is not answered with an IllegalFunction exception response; it fails
`tcp.decode` (which parses it as a server-reported exception) and the
server's per-frame worker drops it silently (`some none` = no write), for
a concrete handler. -/
theorem C4_counterexample :
    Tcp.decode [0, 0, 0, 0, 0, 3, 1, 128, 1] = some (.err (.exception 1)) ∧
    serverProcess (fun _ _ => ([], none)) ⟨0⟩ [0, 0, 0, 0, 0, 3, 1, 128, 1] =
      (⟨0⟩, some none) := by
  decide

/-- C4 amended: with the TCP framer, every inbound ADU of at least 9
bytes whose function-code byte is at or above 0x80 fails `tcp.decode`
(parsing as a server-reported exception) and is dropped silently by the
server's per-frame processing — no response is written and the framer
state is untouched; the server's IllegalFunction branch for decoded codes
≥ 0x80 is unreachable. -/
theorem C4_high_code_dropped (h : Nat → List Nat → List Nat × Option Nat)
    (s : Tcp) (adu : List Nat) (h9 : 9 ≤ adu.length)
    (hc : 128 ≤ adu.getD 7 0) :
    serverProcess h s adu = (s, some none) := by
  unfold serverProcess
  rw [decode_ex h9 hc]

/-- C4 witness: the amended drop behaviour at a concrete frame. -/
theorem C4_witness :
    serverProcess (fun c b => (c :: b, none)) ⟨3⟩ [0, 9, 0, 0, 0, 3, 1, 255, 2] =
      (⟨3⟩, some none) :=
  C4_high_code_dropped _ ⟨3⟩ _ (by decide) (by decide)

/-- C5: function code 0x17 with a bound callback.  The request
`rAddr=0, rQty=1, wAddr=0, wQty=2, byte-count=4 (= 2·wQty), 4 value
bytes` satisfies the claimed acceptance condition (byte-count equals
twice the write quantity and the body length matches), yet the code
rejects it with IllegalDataValue because it compares the byte-count field
against `2·rQuantity`; the second conjunct shows the same mux accepting a
request whose byte-count instead equals `2·rQuantity` (= 2) although
`2·wQty = 4`. -/
theorem C5_byte_count_eval :
    Mux.Handle
        { ReadWriteMultipleRegisters :=
            some fun _ rq _ _ => (List.replicate (2 * rq) 0, none) }
        0x17 [0, 0, 0, 1, 0, 0, 0, 2, 4, 0, 0, 0, 0] =
      (none, some ExIllegalDataValue) ∧
    Mux.Handle
        { ReadWriteMultipleRegisters :=
            some fun _ rq _ _ => (List.replicate (2 * rq) 0, none) }
        0x17 [0, 0, 0, 1, 0, 0, 0, 2, 2, 0, 0] =
      (some [2, 0, 0], none) := by
  decide

/-- Whether the read-family callback for the given function code is bound
in the mux. -/
def readBound (m : Mux) (code : Nat) : Prop :=
  (code = 1 → m.ReadCoils.isSome) ∧ (code = 2 → m.ReadDiscreteInputs.isSome) ∧
  (code = 3 → m.ReadHoldingRegisters.isSome) ∧
  (code = 4 → m.ReadInputRegisters.isSome)

/-- C6: for the read-family function codes 0x01-0x04 with bound callback
and a 4-byte request, `Mux.Handle` returns IllegalDataValue when the
quantity is out of range (1..=2000 for 0x01/0x02, 1..=125 for 0x03/0x04)
and IllegalDataAddress when the quantity is in range but
address + quantity exceeds 0xFFFF; quantifying over the callback shows it
is not invoked in either case. -/
theorem C6_read_validation (m : Mux) (code : Nat) (req : List Nat)
    (hc : code = 1 ∨ code = 2 ∨ code = 3 ∨ code = 4)
    (hb : readBound m code) (hl : req.length = 4) :
    ((u16at req 2 < 1 ∨ u16at req 2 > (if code ≤ 2 then 2000 else 125)) →
      m.Handle code req = (none, some ExIllegalDataValue)) ∧
    (1 ≤ u16at req 2 → u16at req 2 ≤ (if code ≤ 2 then 2000 else 125) →
      u16at req 0 + u16at req 2 > 0xFFFF →
      m.Handle code req = (none, some ExIllegalDataAddress)) := by
  rcases hc with rfl | rfl | rfl | rfl
  · obtain ⟨f, hf⟩ := Option.isSome_iff_exists.mp (hb.1 rfl)
    rw [if_pos (by norm_num)]
    constructor
    · intro hq
      simp [Mux.Handle, Mux.readCoils, hf, hl, hq]
      intro h1 h2
      rcases hq with hq | hq <;> exact (by omega : False).elim
    · intro h1 h2 h3
      have hno : ¬(u16at req 2 < 1 ∨ u16at req 2 > 2000) := by omega
      simp [Mux.Handle, Mux.readCoils, hf, hl, hno, h3]
      intro h
      rcases h with h | h <;> exact (by omega : False).elim
  · obtain ⟨f, hf⟩ := Option.isSome_iff_exists.mp (hb.2.1 rfl)
    rw [if_pos (by norm_num)]
    constructor
    · intro hq
      simp [Mux.Handle, Mux.readDiscreteInputs, hf, hl, hq]
      intro h1 h2
      rcases hq with hq | hq <;> exact (by omega : False).elim
    · intro h1 h2 h3
      have hno : ¬(u16at req 2 < 1 ∨ u16at req 2 > 2000) := by omega
      simp [Mux.Handle, Mux.readDiscreteInputs, hf, hl, hno, h3]
      intro h
      rcases h with h | h <;> exact (by omega : False).elim
  · obtain ⟨f, hf⟩ := Option.isSome_iff_exists.mp (hb.2.2.1 rfl)
    rw [if_neg (by norm_num)]
    constructor
    · intro hq
      simp [Mux.Handle, Mux.readHoldingRegisters, hf, hl, hq]
      intro h1 h2
      rcases hq with hq | hq <;> exact (by omega : False).elim
    · intro h1 h2 h3
      have hno : ¬(u16at req 2 < 1 ∨ u16at req 2 > 125) := by omega
      simp [Mux.Handle, Mux.readHoldingRegisters, hf, hl, hno, h3]
      intro h
      rcases h with h | h <;> exact (by omega : False).elim
  · obtain ⟨f, hf⟩ := Option.isSome_iff_exists.mp (hb.2.2.2 rfl)
    rw [if_neg (by norm_num)]
    constructor
    · intro hq
      simp [Mux.Handle, Mux.readInputRegisters, hf, hl, hq]
      intro h1 h2
      rcases hq with hq | hq <;> exact (by omega : False).elim
    · intro h1 h2 h3
      have hno : ¬(u16at req 2 < 1 ∨ u16at req 2 > 125) := by omega
      simp [Mux.Handle, Mux.readInputRegisters, hf, hl, hno, h3]
      intro h
      rcases h with h | h <;> exact (by omega : False).elim

/-- C6 witness: quantity 0 on a bound ReadCoils callback is rejected with
IllegalDataValue without invoking the callback. -/
theorem C6_witness :
    Mux.Handle { ReadCoils := some fun _ _ => ([], none) } 1 [0, 0, 0, 0] =
      (none, some ExIllegalDataValue) :=
  (C6_read_validation { ReadCoils := some fun _ _ => ([], none) } 1 [0, 0, 0, 0]
    (Or.inl rfl)
    ⟨fun _ => rfl, fun h => absurd h (by decide), fun h => absurd h (by decide),
      fun h => absurd h (by decide)⟩
    rfl).1 (by decide)

theorem encode_length {s : Tcp} {uid code : Nat} {data adu : List Nat}
    (h : (s.encode uid code data).2 = some adu) :
    adu.length = 8 + data.length := by
  unfold Tcp.encode at h
  by_cases hr : 252 < data.length
  · rw [if_pos hr] at h
    exact absurd h (by simp)
  · rw [if_neg hr] at h
    simp only [Option.some.injEq] at h
    rw [← h]
    simp
    omega

/-- C7: a `Client.Request` call with function code 0 or at least 0x80
returns `(nil, IllegalFunction)` with an empty effect trace — before
connection establishment, encoding, receiver registration, or transmit,
and independently of every environment outcome. -/
theorem C7_early_reject (env : ClientEnv) (s : Tcp) (uid code : Nat)
    (req : List Nat) (hc : code = 0 ∨ 0x80 ≤ code) :
    clientRequest env s uid code req =
      ([], .got (none, some (.exception ExIllegalFunction))) := by
  unfold clientRequest
  rw [if_pos hc]

/-- C7 witness: the early rejection at code 0x80. -/
theorem C7_witness :
    clientRequest {} ⟨0⟩ 1 128 [] =
      ([], .got (none, some (.exception ExIllegalFunction))) :=
  C7_early_reject {} ⟨0⟩ 1 128 [] (Or.inr (by decide))

theorem clientAwait_match (adu f : List Nat)
    (frames : List (List Nat × Option MbError)) (hadu7 : 7 ≤ adu.length)
    (herr : ∀ p ∈ frames, p.2 = none)
    (hlen : ∀ p ∈ frames, 7 ≤ p.1.length)
    (hmem : (f, (none : Option MbError)) ∈ frames)
    (hothers : ∀ p ∈ frames, p.1 ≠ f →
      p.1.getD 0 0 ≠ adu.getD 0 0 ∨ p.1.getD 1 0 ≠ adu.getD 1 0)
    (ht0 : f.getD 0 0 = adu.getD 0 0) (ht1 : f.getD 1 0 = adu.getD 1 0)
    (hp2 : f.getD 2 0 = adu.getD 2 0) (hp3 : f.getD 3 0 = adu.getD 3 0)
    (huid : adu.getD 6 0 ≠ 0 → f.getD 6 0 = adu.getD 6 0)
    (hf8 : 8 ≤ f.length) (hf260 : f.length ≤ 260) (hfc : f.getD 7 0 < 128) :
    clientAwait adu frames = .got (some (f.drop 8), none) := by
  revert herr hlen hmem hothers
  induction frames with
  | nil =>
    intro _ _ hmem _
    simp at hmem
  | cons p rest ih =>
    intro herr hlen hmem hothers
    obtain ⟨g, e⟩ := p
    have he : e = none := herr (g, e) (List.mem_cons_self _ _)
    subst he
    by_cases hgf : g = f
    · subst hgf
      have hv : Tcp.verify adu g = some none := by
        rw [verify_spec hadu7 (by omega : 7 ≤ g.length)]
        rw [if_neg (not_or.mpr ⟨not_ne_iff.mpr ht0.symm, not_ne_iff.mpr ht1.symm⟩),
          if_neg (not_or.mpr ⟨not_ne_iff.mpr hp2.symm, not_ne_iff.mpr hp3.symm⟩),
          if_neg (fun hand => hand.2 (huid hand.1).symm)]
      simp only [clientAwait, hv, List.take_of_length_le hf260,
        decode_wf hf8 hfc]
    · have hv : Tcp.verify adu g = some (some .mismatchedTransactionId) := by
        rw [verify_spec hadu7 (hlen (g, none) (List.mem_cons_self _ _))]
        rw [if_pos ((hothers (g, none) (List.mem_cons_self _ _) hgf).imp
          Ne.symm Ne.symm)]
      have hmem' : (f, (none : Option MbError)) ∈ rest := by
        rcases List.mem_cons.mp hmem with h | h
        · exact absurd (congrArg Prod.fst h).symm hgf
        · exact h
      simp only [clientAwait, hv]
      exact ih (fun q hq => herr q (List.mem_cons_of_mem _ hq))
        (fun q hq => hlen q (List.mem_cons_of_mem _ hq)) hmem'
        (fun q hq => hothers q (List.mem_cons_of_mem _ hq))

/-- C8: with the connection, transmit, and cancellation succeeding, a
`Client.Request` whose encoded ADU is offered (in receipt order) the
frames broadcast by the connection — where exactly one well-formed frame
`f` echoes the request's transaction id (matching protocol id and unit
id) and every other frame carries a different transaction id — returns
precisely the payload of `f`: mismatched frames leave the receiver
waiting and are consumed by no other path, so with N concurrent requests
holding distinct transaction ids each receiver independently selects its
own response and none is dropped. -/
theorem C8_tid_matching (env : ClientEnv) (s : Tcp) (uid code : Nat)
    (req adu f : List Nat) (hc0 : code ≠ 0) (hc : code < 0x80)
    (hinit : env.initErr = none) (htx : env.txErr = none)
    (hcan : env.cancelled = false)
    (hadu : (s.encode uid code req).2 = some adu)
    (herr : ∀ p ∈ env.frames, p.2 = none)
    (hlen : ∀ p ∈ env.frames, 7 ≤ p.1.length)
    (hmem : (f, (none : Option MbError)) ∈ env.frames)
    (hothers : ∀ p ∈ env.frames, p.1 ≠ f →
      p.1.getD 0 0 ≠ adu.getD 0 0 ∨ p.1.getD 1 0 ≠ adu.getD 1 0)
    (ht0 : f.getD 0 0 = adu.getD 0 0) (ht1 : f.getD 1 0 = adu.getD 1 0)
    (hp2 : f.getD 2 0 = adu.getD 2 0) (hp3 : f.getD 3 0 = adu.getD 3 0)
    (huid : adu.getD 6 0 ≠ 0 → f.getD 6 0 = adu.getD 6 0)
    (hf8 : 8 ≤ f.length) (hf260 : f.length ≤ 260) (hfc : f.getD 7 0 < 128) :
    clientRequest env s uid code req =
      ([.connect, .encode, .rxreg, .tx], .got (some (f.drop 8), none)) := by
  have hadu7 : 7 ≤ adu.length := by
    have := encode_length hadu
    omega
  simp only [clientRequest, hinit, hadu, htx, hcan,
    if_neg (show ¬(code = 0 ∨ 0x80 ≤ code) by omega),
    clientAwait_match adu f env.frames hadu7 herr hlen hmem hothers
      ht0 ht1 hp2 hp3 huid hf8 hf260 hfc]

/-- C8 witness: two frames arrive out of order; the request with
transaction id 1 skips the frame carrying transaction id 2 and returns
the payload of its own response. -/
theorem C8_witness :
    clientRequest
        { frames := [([0, 2, 0, 0, 0, 3, 1, 3, 9], none),
            ([0, 1, 0, 0, 0, 3, 1, 3, 42], none)] }
        ⟨0⟩ 1 3 [0, 0, 0, 1] =
      ([.connect, .encode, .rxreg, .tx], .got (some [42], none)) :=
  C8_tid_matching _ ⟨0⟩ 1 3 [0, 0, 0, 1] [0, 1, 0, 0, 0, 6, 1, 3, 0, 0, 0, 1]
    [0, 1, 0, 0, 0, 3, 1, 3, 42] (by decide) (by decide) rfl rfl rfl
    (by decide) (by decide) (by decide) (by decide) (by decide) (by decide)
    (by decide) (by decide) (by decide) (by decide) (by decide) (by decide)
    (by decide)

/-- C9: the claim states `tcp.decode` never reads out of range; at the
8-byte ADU `[0,0,0,0,0,2,1,128]` (length exactly 8, function-code byte
0x80) the guarded embedding returns `none`: the source reads `adu[8]`,
one past the end — an out-of-range index access. -/
theorem C9_decode_panics :
    Tcp.decode [0, 0, 0, 0, 0, 2, 1, 128] = none ∧
    ([0, 0, 0, 0, 0, 2, 1, 128] : List Nat).length = 8 ∧
    128 ≤ ([0, 0, 0, 0, 0, 2, 1, 128] : List Nat).getD 7 0 := by
  decide

/-- C10: the claim states `tcp.verify` is total for any response length;
for the 8-byte encoded request `[0,1,0,0,0,2,0,1]` (shown to be a real
`tcp.encode` output) and an empty response — a zero-byte read broadcast
by the reader loop — the guarded embedding returns `none`: the source
reads `res[0]` out of range; a 3-byte partial read of the matching frame
likewise drives the `res[3]` access out of range. -/
theorem C10_verify_panics :
    ((Tcp.mk 0).encode 0 1 ([] : List Nat)).2 = some [0, 1, 0, 0, 0, 2, 0, 1] ∧
    Tcp.verify [0, 1, 0, 0, 0, 2, 0, 1] [] = none ∧
    Tcp.verify [0, 1, 0, 0, 0, 2, 0, 1] [0, 1, 0] = none := by
  decide

end Modbus

